import Mathlib

/-!
# mdnsd interface layer (`interface.c`)

A shallow embedding of the interface lifecycle and multicast transport code of
mdnsd: the send path, the receive path, the reconnect state machine, and the
registration of interface entries.  Calls into the kernel, into libubox
(uloop, usock, vlist) and into the DNS / announce collaborators are recorded
as a trace of `Effect`s; the values those calls return are supplied by the
caller of each function as an oracle.
-/

namespace Mdnsd

/-! ## C integer conversions -/

/-- Value held by a 32-bit signed C `int` after converting the integer `x` to it. -/
def toInt32 (x : Int) : Int := (x + 2147483648) % 4294967296 - 2147483648

/-- Value held by a 32-bit unsigned C integer (`unsigned int`, `socklen_t`)
after converting the integer `x` to it. -/
def toUInt32 (x : Int) : Int := x % 4294967296

/-! ## Constants -/

/-- Modelled from the spec: the macro `MCAST_ADDR` is declared in a header that
is not part of the sources; the spec fixes the IPv4 multicast group as
224.0.0.251. -/
def MCAST_ADDR : String := "224.0.0.251"

/-- Modelled from the spec: the macro `MCAST_ADDR6` is declared in a header that
is not part of the sources; the spec fixes the IPv6 multicast group as
ff02::fb. -/
def MCAST_ADDR6 : String := "ff02::fb"

/-- Modelled from the spec: the macro `MCAST_PORT` is declared in a header that
is not part of the sources; the spec fixes the UDP port as 5353. -/
def MCAST_PORT : Nat := 5353

/-- Modelled from the spec: the macro `TYPE_PTR` is declared in `dns.h`, which is
not part of the sources; the spec names the question type `PTR`, whose DNS
record type number is 12. -/
def TYPE_PTR : Nat := 12

/-- Linux value of `IPPROTO_IP`. -/
def IPPROTO_IP : Int := 0
/-- Linux value of `IP_PKTINFO`. -/
def IP_PKTINFO : Int := 8
/-- Linux value of `IPPROTO_IPV6`. -/
def IPPROTO_IPV6 : Int := 41
/-- Linux value of `IPV6_PKTINFO`. -/
def IPV6_PKTINFO : Int := 50
/-- Linux value of `AF_INET`. -/
def AF_INET : Nat := 2
/-- Linux value of `AF_INET6`. -/
def AF_INET6 : Nat := 10

/-! ## Data model -/

/-- The callback stored in `iface->fd.cb`. -/
inductive FdCallback
  | read_socket
  deriving DecidableEq, Repr

/-- The callback stored in `iface->reconnect.cb`. -/
inductive TimeoutCallback
  | reconnect_socket
  deriving DecidableEq, Repr

/-- The fields of `struct interface` that `interface.c` reads or writes.
`fd`, `registered`, `eof` and `fd_cb` are the members of the embedded
`struct uloop_fd`; `reconnect` is the embedded `struct uloop_timeout`:
`some ms` when the timer is pending (armed with delay `ms`), `none` otherwise;
`reconnect_cb` is its callback. -/
structure Interface where
  name : String
  id : String
  ifindex : Int
  v6 : Bool
  mcast_addr : String
  v4_addr : Nat
  v6_addr : Nat
  fd : Int
  registered : Bool
  eof : Bool
  fd_cb : Option FdCallback
  reconnect : Option Nat
  reconnect_cb : Option TimeoutCallback
  deriving DecidableEq, Repr

/-- One ancillary record (`struct cmsghdr` with its data).  `ipi_ifindex` is what
`((struct in_pktinfo *) CMSG_DATA(c))->ipi_ifindex` reads (an `int`),
`ipi6_ifindex` what `((struct in6_pktinfo *) CMSG_DATA(c))->ipi6_ifindex` reads
(an `unsigned int`). -/
structure Cmsghdr where
  cmsg_level : Int
  cmsg_type : Int
  ipi_ifindex : Int
  ipi6_ifindex : Int
  deriving DecidableEq, Repr

/-- Destination socket address (`struct sockaddr_in` / `struct sockaddr_in6`):
family, port number and the textual form of the address. -/
structure SockAddr where
  family : Nat
  port : Nat
  addr : String
  deriving DecidableEq, Repr

/-- The `struct msghdr` handed to `sendmsg`: destination, the segment array with its
count, and the ancillary records in the control buffer. -/
structure Msghdr where
  msg_name : SockAddr
  msg_iov : List (List Nat)
  msg_iovlen : Int
  msg_control : List Cmsghdr
  deriving DecidableEq, Repr

/-- Socket options set by the socket configurator. -/
inductive SockOpt
  | IP_MULTICAST_TTL
  | SO_REUSEADDR
  | IP_DROP_MEMBERSHIP
  | IP_ADD_MEMBERSHIP
  | IP_RECVTTL
  | IP_PKTINFO
  | IP_MULTICAST_LOOP
  | IPV6_MULTICAST_HOPS
  | IPV6_UNICAST_HOPS
  | IPV6_LEAVE_GROUP
  | IPV6_ADD_MEMBERSHIP
  | IPV6_RECVPKTINFO
  | IPV6_RECVHOPLIMIT
  | IPV6_MULTICAST_LOOP
  deriving DecidableEq, Repr

/-- Flags passed to `usock`. -/
inductive UsockFlag
  | USOCK_UDP
  | USOCK_SERVER
  | USOCK_NONBLOCK
  | USOCK_IPV6ONLY
  | USOCK_IPV4ONLY
  deriving DecidableEq, Repr

/-- The value handed to `setsockopt`: an integer flag or count, a `struct ip_mreqn`
(group, local address, interface index) or a `struct ipv6_mreq` (group, interface
index). -/
inductive OptVal
  | int (v : Int)
  | ip_mreqn (imr_multiaddr : String) (imr_address : Nat) (imr_ifindex : Int)
  | ipv6_mreq (ipv6mr_multiaddr : String) (ipv6mr_interface : Int)
  deriving DecidableEq, Repr

/-- Event flags passed to `uloop_fd_add`. -/
inductive UloopFlag
  | ULOOP_READ
  deriving DecidableEq, Repr

/-- A call that leaves `interface.c`: into the kernel, libubox, libc, or the DNS and
announce modules.  Calls that take the `struct interface *` carry its `id`. -/
inductive Effect
  | sendmsg (fd : Int) (m : Msghdr)
  | announce_free (ifaceId : String)
  | uloop_fd_delete (fd : Int)
  | close (fd : Int)
  | free (ifaceId : String)
  | uloop_timeout_set (msecs : Nat)
  | recvmsg (fd : Int)
  | perror (msg : String)
  | fprintf (msg : String)
  | dns_handle_packet (ifaceId : String) (len : Int)
  | usock (type : List UsockFlag) (host : String) (service : String)
  | setsockopt (fd : Int) (opt : SockOpt) (val : OptVal)
  | uloop_fd_add (fd : Int) (flags : UloopFlag)
  | dns_send_question (ifaceId : String) (question : String) (type : Nat)
  | announce_init (ifaceId : String)
  | if_nametoindex (name : String)
  | socket (domain : Nat)
  | ioctl_SIOCGIFADDR (sock : Int) (ifr_name : String)
  | connect (sock : Int) (scope : Int)
  | getsockname (sock : Int)
  | vlist_add (key : String)
  deriving DecidableEq, Repr

/-! ## Send path -/

/-- Embedding of `interface_send_packet4`; `ret` is what `sendmsg` returns. -/
def interface_send_packet4 (iface : Interface) (iov : List (List Nat)) (iov_len : Int)
    (ret : Int) : Int × List Effect :=
  let a : SockAddr := { family := AF_INET, port := MCAST_PORT, addr := MCAST_ADDR }
  let cmsg : Cmsghdr :=
    { cmsg_level := IPPROTO_IP, cmsg_type := IP_PKTINFO,
      ipi_ifindex := iface.ifindex, ipi6_ifindex := 0 }
  let m : Msghdr := { msg_name := a, msg_iov := iov, msg_iovlen := iov_len, msg_control := [cmsg] }
  (ret, [Effect.sendmsg iface.fd m])

/-- Embedding of `interface_send_packet6`; `ret` is what `sendmsg` returns.  The
index is stored into the `unsigned int` member `ipi6_ifindex`. -/
def interface_send_packet6 (iface : Interface) (iov : List (List Nat)) (iov_len : Int)
    (ret : Int) : Int × List Effect :=
  let a : SockAddr := { family := AF_INET6, port := MCAST_PORT, addr := MCAST_ADDR6 }
  let cmsg : Cmsghdr :=
    { cmsg_level := IPPROTO_IPV6, cmsg_type := IPV6_PKTINFO,
      ipi_ifindex := 0, ipi6_ifindex := toUInt32 iface.ifindex }
  let m : Msghdr := { msg_name := a, msg_iov := iov, msg_iovlen := iov_len, msg_control := [cmsg] }
  (ret, [Effect.sendmsg iface.fd m])

/-- Embedding of `interface_send_packet`. -/
def interface_send_packet (iface : Interface) (iov : List (List Nat)) (iov_len : Int)
    (ret : Int) : Int × List Effect :=
  if iface.v6 then interface_send_packet6 iface iov iov_len ret
  else interface_send_packet4 iface iov iov_len ret

/-! ## Closing and releasing an entry -/

/-- Embedding of `interface_close`.  `uloop_fd_delete` clears the registration of the
descriptor with the event loop. -/
def interface_close (iface : Interface) : Interface × List Effect :=
  if iface.fd < 0 then (iface, [])
  else
    ({ iface with registered := false, fd := -1 },
     [Effect.announce_free iface.id, Effect.uloop_fd_delete iface.fd, Effect.close iface.fd])

/-- Embedding of `interface_free`: the returned entry is the state in which the
memory is handed to `free`. -/
def interface_free (iface : Interface) : Interface × List Effect :=
  let r := interface_close iface
  (r.1, r.2 ++ [Effect.free iface.id])

/-! ## Receive path -/

/-- What `recvmsg` hands back: its return value and the ancillary records it left
in the control buffer. -/
structure RecvResult where
  ret : Int
  control : List Cmsghdr
  deriving DecidableEq, Repr

/-- The loop over the ancillary records in `read_socket`:
`for (c = CMSG_FIRSTHDR; c != NULL && ifindex == -1; c = CMSG_NXTHDR)`. -/
def scan_cmsg : List Cmsghdr → Int → Int
  | [], ifindex => ifindex
  | c :: rest, ifindex =>
    if ifindex = -1 then
      if c.cmsg_level = IPPROTO_IP ∧ c.cmsg_type = IP_PKTINFO then
        scan_cmsg rest c.ipi_ifindex
      else if c.cmsg_level = IPPROTO_IPV6 ∧ c.cmsg_type = IPV6_PKTINFO then
        scan_cmsg rest (toInt32 c.ipi6_ifindex)
      else scan_cmsg rest ifindex
    else ifindex

/-- Embedding of `read_socket`.  `iface.eof` is the flag `u->eof` the event loop set
before the call; `r` is what `recvmsg` returns when it is called.  `len` is a
`socklen_t`, so the test `len == -1` compares it with the converted `-1`. -/
def read_socket (iface : Interface) (r : RecvResult) : Interface × List Effect :=
  if iface.eof then
    let c := interface_close iface
    ({ c.1 with reconnect := some 1000 }, c.2 ++ [Effect.uloop_timeout_set 1000])
  else
    let len := toUInt32 r.ret
    if len = toUInt32 (-1) then
      (iface, [Effect.recvmsg iface.fd, Effect.perror "read failed"])
    else
      let ifindex := scan_cmsg r.control (-1)
      if ifindex ≠ iface.ifindex then
        (iface, [Effect.recvmsg iface.fd, Effect.fprintf "invalid iface index"])
      else
        (iface, [Effect.recvmsg iface.fd, Effect.dns_handle_packet iface.id len])

/-! ## Socket configuration -/

/-- Outcomes of the calls made while connecting: `usock` yields a descriptor or
fails (libubox returns a non-negative descriptor, or -1 on failure);
`setsockopt` yields its return value for the given descriptor and option. -/
structure SockEnv where
  usock : List UsockFlag → String → String → Option Nat
  setsockopt : Int → SockOpt → Int

/-- The recurring statement `if (setsockopt(fd, ..., opt, ...) < 0) fprintf(stderr, msg)`. -/
def setsockopt_logged (env : SockEnv) (fd : Int) (opt : SockOpt) (val : OptVal)
    (msg : String) : List Effect :=
  if env.setsockopt fd opt < 0 then [Effect.setsockopt fd opt val, Effect.fprintf msg]
  else [Effect.setsockopt fd opt val]

/-- Embedding of `interface_socket_setup4`: returns 0, or -1 after closing the
descriptor when joining the group fails. -/
def interface_socket_setup4 (env : SockEnv) (iface : Interface) : Int × List Effect :=
  let fd := iface.fd
  let mreq := OptVal.ip_mreqn MCAST_ADDR iface.v4_addr iface.ifindex
  let e1 := setsockopt_logged env fd .IP_MULTICAST_TTL (.int 255) "ioctl failed: IP_MULTICAST_TTL"
  let e2 := setsockopt_logged env fd .SO_REUSEADDR (.int 1) "ioctl failed: SO_REUSEADDR"
  let e3 := [Effect.setsockopt fd .IP_DROP_MEMBERSHIP mreq]
  if env.setsockopt fd .IP_ADD_MEMBERSHIP < 0 then
    (-1, e1 ++ e2 ++ e3 ++
      [Effect.setsockopt fd .IP_ADD_MEMBERSHIP mreq,
       Effect.fprintf "failed to join multicast group", Effect.close fd])
  else
    let e4 := [Effect.setsockopt fd .IP_ADD_MEMBERSHIP mreq]
    let e5 := setsockopt_logged env fd .IP_RECVTTL (.int 1) "ioctl failed: IP_RECVTTL"
    let e6 := setsockopt_logged env fd .IP_PKTINFO (.int 1) "ioctl failed: IP_PKTINFO"
    let e7 := setsockopt_logged env fd .IP_MULTICAST_LOOP (.int 0) "ioctl failed: IP_MULTICAST_LOOP"
    (0, e1 ++ e2 ++ e3 ++ e4 ++ e5 ++ e6 ++ e7)

/-- Embedding of `interface_socket_setup6`: returns 0, or -1 after closing the
descriptor when joining the group fails. -/
def interface_socket_setup6 (env : SockEnv) (iface : Interface) : Int × List Effect :=
  let fd := iface.fd
  let mreq := OptVal.ipv6_mreq MCAST_ADDR6 (toUInt32 iface.ifindex)
  let e1 := setsockopt_logged env fd .IPV6_MULTICAST_HOPS (.int 255) "ioctl failed: IPV6_MULTICAST_HOPS"
  let e2 := setsockopt_logged env fd .IPV6_UNICAST_HOPS (.int 255) "ioctl failed: IPV6_UNICAST_HOPS"
  let e3 := setsockopt_logged env fd .SO_REUSEADDR (.int 1) "ioctl failed: SO_REUSEADDR"
  let e4 := [Effect.setsockopt fd .IPV6_LEAVE_GROUP mreq]
  if env.setsockopt fd .IPV6_ADD_MEMBERSHIP < 0 then
    (-1, e1 ++ e2 ++ e3 ++ e4 ++
      [Effect.setsockopt fd .IPV6_ADD_MEMBERSHIP mreq,
       Effect.fprintf "failed to join multicast group", Effect.close fd])
  else
    let e5 := [Effect.setsockopt fd .IPV6_ADD_MEMBERSHIP mreq]
    let e6 := setsockopt_logged env fd .IPV6_RECVPKTINFO (.int 1) "ioctl failed: IPV6_RECVPKTINFO"
    let e7 := setsockopt_logged env fd .IPV6_RECVHOPLIMIT (.int 1) "ioctl failed: IPV6_RECVHOPLIMIT"
    let e8 := setsockopt_logged env fd .IPV6_MULTICAST_LOOP (.int 0) "ioctl failed: IPV6_MULTICAST_LOOP"
    (0, e1 ++ e2 ++ e3 ++ e4 ++ e5 ++ e6 ++ e7 ++ e8)

/-! ## Reconnect state machine -/

/-- The text `snprintf(buf, size, ...)` leaves in `buf` when the formatted text is
`s`: at most `size - 1` characters of it (interface names and group addresses are
ASCII, one byte per character). -/
def snprintf (size : Nat) (s : String) : String := String.mk (s.toList.take (size - 1))

/-- The label `retry:` of `reconnect_socket`: arm the reconnect timer for 1000 ms. -/
def reconnect_retry (iface : Interface) (effs : List Effect) : Interface × List Effect :=
  ({ iface with reconnect := some 1000 }, effs ++ [Effect.uloop_timeout_set 1000])

/-- The text `reconnect_socket` formats into its 16-byte buffer `mcast_addr`:
`"%s%%%s"` of the group address and the interface name for an IPv6 entry, `"%s"`
of the group address otherwise. -/
def reconnect_mcast_addr (iface : Interface) : String :=
  if iface.v6 then snprintf 16 (iface.mcast_addr ++ "%" ++ iface.name)
  else snprintf 16 iface.mcast_addr

/-- The flags `reconnect_socket` passes to `usock`:
`USOCK_UDP | USOCK_SERVER | USOCK_NONBLOCK | type`. -/
def reconnect_type (iface : Interface) : List UsockFlag :=
  if iface.v6 then
    [UsockFlag.USOCK_UDP, UsockFlag.USOCK_SERVER, UsockFlag.USOCK_NONBLOCK,
     UsockFlag.USOCK_IPV6ONLY]
  else
    [UsockFlag.USOCK_UDP, UsockFlag.USOCK_SERVER, UsockFlag.USOCK_NONBLOCK,
     UsockFlag.USOCK_IPV4ONLY]

/-- Embedding of `reconnect_socket`.  `uloop_fd_add` registers the descriptor with
the event loop and clears its end-of-stream flag. -/
def reconnect_socket (env : SockEnv) (iface : Interface) : Interface × List Effect :=
  let mcast_addr := reconnect_mcast_addr iface
  let type := reconnect_type iface
  let fd : Int :=
    match env.usock type mcast_addr "5353" with
    | some d => (d : Int)
    | none => -1
  let iface1 := { iface with fd := fd }
  let e0 := [Effect.usock type mcast_addr "5353"]
  if fd < 0 then
    reconnect_retry iface1 (e0 ++ [Effect.fprintf "failed to add listener"])
  else
    let s4 := if iface.v6 then (0, []) else interface_socket_setup4 env iface1
    if !iface.v6 ∧ s4.1 ≠ 0 then
      reconnect_retry { iface1 with fd := -1 } (e0 ++ s4.2)
    else
      let s6 := if iface.v6 then interface_socket_setup6 env iface1 else (0, [])
      if iface.v6 ∧ s6.1 ≠ 0 then
        reconnect_retry { iface1 with fd := -1 } (e0 ++ s4.2 ++ s6.2)
      else
        ({ iface1 with registered := true, eof := false },
         e0 ++ s4.2 ++ s6.2 ++
           [Effect.uloop_fd_add fd UloopFlag.ULOOP_READ,
            Effect.dns_send_question iface.id "_services._dns-sd._udp.local" TYPE_PTR,
            Effect.announce_init iface.id])

/-- Embedding of `interface_start`. -/
def interface_start (iface : Interface) : Interface × List Effect :=
  ({ iface with fd_cb := some FdCallback.read_socket,
                reconnect_cb := some TimeoutCallback.reconnect_socket,
                reconnect := some 100 },
   [Effect.uloop_timeout_set 100])

/-- Embedding of `iface_update_cb`: returns the new node as started, the old node in
the state in which it was released, and the calls made. -/
def iface_update_cb (node_new node_old : Option Interface) :
    Option Interface × Option Interface × List Effect :=
  let o :=
    match node_old with
    | some iface => let r := interface_free iface; (some r.1, r.2)
    | none => (none, [])
  let n :=
    match node_new with
    | some iface => let r := interface_start iface; (some r.1, r.2)
    | none => (none, [])
  (n.1, o.1, o.2 ++ n.2)

/-- What the event loop delivers to an entry: the expiry of its reconnect timer
(with the outcomes of the calls the attempt will make), or readiness of its
descriptor (with the end-of-stream indication and what `recvmsg` will return). -/
inductive Event
  | timeout (env : SockEnv)
  | readable (eof : Bool) (r : RecvResult)

/-- One dispatch of the event loop on an entry.  A timer is delivered only while it
is pending and is no longer pending when its callback runs; a descriptor event
is delivered only while the descriptor is registered, and the end-of-stream flag,
once raised, stays raised until the descriptor is registered again.  `none`: the
event cannot be delivered in this state. -/
def step (iface : Interface) : Event → Option (Interface × List Effect)
  | Event.timeout env =>
    match iface.reconnect, iface.reconnect_cb with
    | some _, some TimeoutCallback.reconnect_socket =>
      some (reconnect_socket env { iface with reconnect := none })
    | _, _ => none
  | Event.readable eof r =>
    if iface.registered then
      match iface.fd_cb with
      | some FdCallback.read_socket => some (read_socket { iface with eof := iface.eof || eof } r)
      | none => none
    else none

/-- The states of an entry reachable from `interface_start` on a fresh entry (no
socket, not registered) by deliveries of the event loop. -/
inductive Reachable : Interface → Prop
  | start (iface : Interface) (hfd : iface.fd = -1) (hreg : iface.registered = false) :
      Reachable (interface_start iface).1
  | next (s s1 : Interface) (ev : Event) (effs : List Effect) :
      Reachable s → step s ev = some (s1, effs) → Reachable s1

/-! ## Address discovery and registration -/

/-- Outcomes of the calls made while adding an interface: the index lookup (an
`unsigned int`, 0 when the name is unknown), the configured protocol restriction
`cfg_proto`, the descriptor `socket` returns for an address family, the return
value and address of the `SIOCGIFADDR` request, and the return value and address
of `getsockname` on the socket connected with the given scope. -/
structure AddEnv where
  if_nametoindex : String → Int
  cfg_proto : Int
  socket : Nat → Int
  ioctl_SIOCGIFADDR : Int → String → Int × Nat
  getsockname : Int → Int → Int × Nat

/-- Embedding of `get_iface_ipv4`: the return value, the entry as updated, and the
calls made.  `strncpy` copies at most `sizeof(ir.ifr_name)` = 16 characters. -/
def get_iface_ipv4 (env : AddEnv) (iface : Interface) : Int × Interface × List Effect :=
  if env.cfg_proto ≠ 0 ∧ env.cfg_proto ≠ 4 then (-1, iface, [])
  else
    let sock := env.socket AF_INET
    if sock < 0 then (-1, iface, [Effect.socket AF_INET])
    else
      let ifr_name := String.mk (iface.name.toList.take 16)
      let r := env.ioctl_SIOCGIFADDR sock ifr_name
      let effs := [Effect.socket AF_INET, Effect.ioctl_SIOCGIFADDR sock ifr_name, Effect.close sock]
      if r.1 < 0 then (r.1, iface, effs)
      else (r.1, { iface with v4_addr := r.2, mcast_addr := MCAST_ADDR }, effs)

/-- Embedding of `get_iface_ipv6`: the return value, the entry as updated, and the
calls made. -/
def get_iface_ipv6 (env : AddEnv) (iface : Interface) : Int × Interface × List Effect :=
  if env.cfg_proto ≠ 0 ∧ env.cfg_proto ≠ 6 then (-1, iface, [])
  else
    let scope := toUInt32 iface.ifindex
    let sock := env.socket AF_INET6
    let r := env.getsockname sock scope
    let effs :=
      [Effect.socket AF_INET6, Effect.connect sock scope, Effect.getsockname sock, Effect.close sock]
    if r.1 = 0 then
      (r.1, { iface with v6_addr := r.2, mcast_addr := MCAST_ADDR6, v6 := true }, effs)
    else (r.1, iface, effs)

/-- The registry: the nodes of the vlist tree `interfaces` (each keyed by its `id`),
and the entries handed to `free`, each in the state it had when released. -/
structure World where
  interfaces : List Interface
  released : List Interface
  deriving DecidableEq, Repr

/-- The libubox call `vlist_add(&interfaces, &iface->node, key)` for a tree declared
with `keep_old = false` and `no_delete = false`, as `VLIST_TREE(interfaces,
avl_strcmp, iface_update_cb, false, false)` declares it: a node already stored
under `key` is taken out of the tree, the new node is inserted, and the update
callback is called with the new node and the node found (or none). -/
def vlist_add (w : World) (node : Interface) (key : String) : World × List Effect :=
  let node_old := w.interfaces.find? (fun n => n.id = key)
  let tree :=
    match node_old with
    | some _ => w.interfaces.eraseP (fun n => n.id = key)
    | none => w.interfaces
  let r := iface_update_cb (some node) node_old
  ({ interfaces := tree ++ r.1.toList, released := w.released ++ r.2.1.toList },
   Effect.vlist_add key :: r.2.2)

/-- The entry `_interface_add` allocates with `calloc_a` and fills in before the
index check: zeroed, then `id`, `name`, `ifindex` and `fd.fd = -1`.  The index
returned by `if_nametoindex` is stored into the `int` member `ifindex`. -/
def new_interface (env : AddEnv) (name : String) (v6 : Bool) : Interface :=
  { name := name,
    id := (if v6 then "1" else "0") ++ "_" ++ name,
    ifindex := toInt32 (env.if_nametoindex name),
    v6 := false, mcast_addr := "", v4_addr := 0, v6_addr := 0,
    fd := -1, registered := false, eof := false, fd_cb := none,
    reconnect := none, reconnect_cb := none }

/-- The label `error:` of `_interface_add`: release the entry and return -1. -/
def interface_add_error (w : World) (iface : Interface) (effs : List Effect) :
    Int × World × List Effect :=
  (-1, { w with released := w.released ++ [iface] }, effs ++ [Effect.free iface.id])

/-- Embedding of `_interface_add`; the parameter `v6` is 0 (`false`) or 1 (`true`). -/
def _interface_add (env : AddEnv) (w : World) (name : String) (v6 : Bool) :
    Int × World × List Effect :=
  let iface := new_interface env name v6
  let e0 := [Effect.if_nametoindex name]
  if iface.ifindex ≤ 0 then interface_add_error w iface e0
  else
    let r4 := if v6 then (0, iface, []) else get_iface_ipv4 env iface
    if !v6 ∧ r4.1 ≠ 0 then interface_add_error w r4.2.1 (e0 ++ r4.2.2)
    else
      let r6 := if v6 then get_iface_ipv6 env r4.2.1 else (0, r4.2.1, [])
      if v6 ∧ r6.1 ≠ 0 then interface_add_error w r6.2.1 (e0 ++ r4.2.2 ++ r6.2.2)
      else
        let a := vlist_add w r6.2.1 r6.2.1.id
        (0, a.1, e0 ++ r4.2.2 ++ r6.2.2 ++ a.2)

/-- Embedding of `interface_add`: the value of `v4 && v6` is 1 when both calls
returned non-zero and 0 otherwise. -/
def interface_add (env : AddEnv) (w : World) (name : String) : Int × World × List Effect :=
  let v4 := _interface_add env w name false
  let v6 := _interface_add env v4.2.1 name true
  ((if v4.1 ≠ 0 ∧ v6.1 ≠ 0 then 1 else 0), v6.2.1, v4.2.2 ++ v6.2.2)

/-! ## Observations on traces and specification-side definitions -/

/-- The invocations of `dns_handle_packet` in a trace: entry and length. -/
def handled (effs : List Effect) : List (String × Int) :=
  effs.filterMap fun e =>
    match e with
    | Effect.dns_handle_packet i len => some (i, len)
    | _ => none

/-- The keys submitted to the registry in a trace. -/
def submitted_keys (effs : List Effect) : List String :=
  effs.filterMap fun e =>
    match e with
    | Effect.vlist_add key => some key
    | _ => none

/-- The descriptors closed in a trace. -/
def closed (effs : List Effect) : List Int :=
  effs.filterMap fun e =>
    match e with
    | Effect.close fd => some fd
    | _ => none

/-- The delays with which the reconnect timer is armed in a trace. -/
def timers_set (effs : List Effect) : List Nat :=
  effs.filterMap fun e =>
    match e with
    | Effect.uloop_timeout_set ms => some ms
    | _ => none

/-- The registrations with the event loop in a trace. -/
def registrations (effs : List Effect) : List (Int × UloopFlag) :=
  effs.filterMap fun e =>
    match e with
    | Effect.uloop_fd_add fd fl => some (fd, fl)
    | _ => none

/-- The questions sent in a trace: entry, name and type. -/
def questions (effs : List Effect) : List (String × String × Nat) :=
  effs.filterMap fun e =>
    match e with
    | Effect.dns_send_question i q t => some (i, q, t)
    | _ => none

/-- The invocations of `announce_init` in a trace. -/
def announce_inits (effs : List Effect) : List String :=
  effs.filterMap fun e =>
    match e with
    | Effect.announce_init i => some i
    | _ => none

/-- The entries handed to `free` in a trace. -/
def freed (effs : List Effect) : List String :=
  effs.filterMap fun e =>
    match e with
    | Effect.free i => some i
    | _ => none

/-- What `usock` returns in a connect attempt of the entry. -/
def usock_result (env : SockEnv) (iface : Interface) : Option Nat :=
  env.usock (reconnect_type iface) (reconnect_mcast_addr iface) "5353"

/-- What joining the multicast group returns on descriptor `d` in a connect attempt
of the entry (`IP_ADD_MEMBERSHIP`, or `IPV6_ADD_MEMBERSHIP` for an IPv6 entry). -/
def join_result (env : SockEnv) (iface : Interface) (d : Nat) : Int :=
  env.setsockopt d (if iface.v6 then SockOpt.IPV6_ADD_MEMBERSHIP else SockOpt.IP_ADD_MEMBERSHIP)

/-- Socket creation fails, or the multicast group join fails, in a connect attempt
of the entry. -/
def attempt_fails (env : SockEnv) (iface : Interface) : Prop :=
  match usock_result env iface with
  | none => True
  | some d => join_result env iface d < 0

instance (env : SockEnv) (iface : Interface) : Decidable (attempt_fails env iface) := by
  unfold attempt_fails; split <;> infer_instance

/-- Successive expiries of the reconnect timer, each with its own call outcomes. -/
def fire_timers : Interface → List SockEnv → Option Interface
  | s, [] => some s
  | s, env :: rest =>
    match step s (Event.timeout env) with
    | some r => fire_timers r.1 rest
    | none => none

/-- The interface index a record carries when it is a packet-info record
(`IPPROTO_IP`/`IP_PKTINFO` or `IPPROTO_IPV6`/`IPV6_PKTINFO`), read as an `int`. -/
def pktinfo_index (c : Cmsghdr) : Option Int :=
  if c.cmsg_level = IPPROTO_IP ∧ c.cmsg_type = IP_PKTINFO then some c.ipi_ifindex
  else if c.cmsg_level = IPPROTO_IPV6 ∧ c.cmsg_type = IPV6_PKTINFO then
    some (toInt32 c.ipi6_ifindex)
  else none

/-- The interface index carried by the first packet-info record of the ancillary
data, if there is one. -/
def first_pktinfo : List Cmsghdr → Option Int
  | [] => none
  | c :: rest =>
    match pktinfo_index c with
    | some i => some i
    | none => first_pktinfo rest

/-- The trace observations of a connect attempt. -/
structure AttemptTrace where
  closed : List Int
  timers : List Nat
  registrations : List (Int × UloopFlag)
  questions : List (String × String × Nat)
  inits : List String
  deriving DecidableEq, Repr

/-- Collect the observations of a trace. -/
def observe (effs : List Effect) : AttemptTrace :=
  { closed := closed effs, timers := timers_set effs, registrations := registrations effs,
    questions := questions effs, inits := announce_inits effs }

/-- State (a) of an entry: no socket, not registered with the event loop, reconnect
timer pending. -/
def retrying (s : Interface) : Prop :=
  s.fd = -1 ∧ s.registered = false ∧ s.reconnect.isSome = true

/-- State (b) of an entry: socket bound, registered for read events, no reconnect
timer pending. -/
def active (s : Interface) : Prop :=
  0 ≤ s.fd ∧ s.registered = true ∧ s.reconnect = none

instance (s : Interface) : Decidable (retrying s) := by
  unfold retrying; infer_instance

instance (s : Interface) : Decidable (active s) := by
  unfold active; infer_instance

/-- The IPv4 resolution for `name` succeeds: the index is positive, so that
`_interface_add` runs `get_iface_ipv4` on the new entry, and that call returns 0. -/
def ipv4_resolved (env : AddEnv) (name : String) : Bool :=
  decide (0 < toInt32 (env.if_nametoindex name)) &&
    decide ((get_iface_ipv4 env (new_interface env name false)).1 = 0)

/-- The IPv6 resolution for `name` succeeds: the index is positive, so that
`_interface_add` runs `get_iface_ipv6` on the new entry, and that call returns 0. -/
def ipv6_resolved (env : AddEnv) (name : String) : Bool :=
  decide (0 < toInt32 (env.if_nametoindex name)) &&
    decide ((get_iface_ipv6 env (new_interface env name true)).1 = 0)

/-! ## Example entries and call outcomes -/

/-- An idle IPv4 entry for `eth0` (index 3) as `_interface_add` and `interface_start`
leave it: no socket, reconnect timer pending. -/
def eth0_v4 : Interface :=
  { name := "eth0", id := "0_eth0", ifindex := 3, v6 := false, mcast_addr := "224.0.0.251",
    v4_addr := 3232235786, v6_addr := 0, fd := -1, registered := false, eof := false,
    fd_cb := some FdCallback.read_socket, reconnect := some 100,
    reconnect_cb := some TimeoutCallback.reconnect_socket }

/-- An idle IPv6 entry for `eth0` (index 3): no socket, reconnect timer pending. -/
def eth0_v6 : Interface :=
  { name := "eth0", id := "1_eth0", ifindex := 3, v6 := true, mcast_addr := "ff02::fb",
    v4_addr := 0, v6_addr := 1, fd := -1, registered := false, eof := false,
    fd_cb := some FdCallback.read_socket, reconnect := some 100,
    reconnect_cb := some TimeoutCallback.reconnect_socket }

/-- Call outcomes in which `usock` fails. -/
def env_no_socket : SockEnv :=
  { usock := fun _ _ _ => none, setsockopt := fun _ _ => 0 }

/-- Call outcomes in which `usock` yields descriptor 5 and every `setsockopt` fails. -/
def env_no_join : SockEnv :=
  { usock := fun _ _ _ => some 5, setsockopt := fun _ _ => -1 }

/-- Call outcomes in which `usock` yields descriptor 5, joining the group succeeds
and every other `setsockopt` fails. -/
def env_join_only : SockEnv :=
  { usock := fun _ _ _ => some 5,
    setsockopt := fun _ opt =>
      if opt = SockOpt.IP_ADD_MEMBERSHIP ∨ opt = SockOpt.IPV6_ADD_MEMBERSHIP then 0 else -1 }

/-- The entry `_interface_add` hands to the registry for `eth0` over IPv4, before
`interface_start`: no socket, nothing registered, no timer, no callbacks. -/
def eth0_v4_fresh : Interface :=
  { name := "eth0", id := "0_eth0", ifindex := 3, v6 := false, mcast_addr := "224.0.0.251",
    v4_addr := 3232235786, v6_addr := 0, fd := -1, registered := false, eof := false,
    fd_cb := none, reconnect := none, reconnect_cb := none }

/-- Call outcomes of a host on which `eth0` has index 3 and the IPv4 address
192.168.1.10 but no IPv6 source address, no other interface exists, and no
protocol restriction is configured. -/
def env_eth0_v4_only : AddEnv :=
  { if_nametoindex := fun n => if n = "eth0" then 3 else 0,
    cfg_proto := 0,
    socket := fun _ => 7,
    ioctl_SIOCGIFADDR := fun _ n => if n = "eth0" then (0, 3232235786) else (-1, 0),
    getsockname := fun _ _ => (-1, 0) }

/-- The empty registry. -/
def world_empty : World := { interfaces := [], released := [] }

/-- The IPv4 entry of `eth0` while active: bound to descriptor 5, registered, no
timer pending. -/
def eth0_v4_running : Interface :=
  { eth0_v4 with fd := 5, registered := true, reconnect := none }

/-- A registry holding the active IPv4 entry of `eth0`. -/
def world_eth0_running : World := { interfaces := [eth0_v4_running], released := [] }

/-- An idle IPv6 entry for the VLAN interface `eth0.100` (index 7). -/
def eth0_100_v6 : Interface :=
  { name := "eth0.100", id := "1_eth0.100", ifindex := 7, v6 := true, mcast_addr := "ff02::fb",
    v4_addr := 0, v6_addr := 1, fd := -1, registered := false, eof := false,
    fd_cb := some FdCallback.read_socket, reconnect := some 100,
    reconnect_cb := some TimeoutCallback.reconnect_socket }

/-! ## Receive path: theorems -/

theorem scan_cmsg_of_found (cs : List Cmsghdr) (x : Int) (hx : x ≠ -1) :
    scan_cmsg cs x = x := by
  cases cs with
  | nil => rfl
  | cons c rest => simp [scan_cmsg, hx]

theorem scan_cmsg_eq_first (cs : List Cmsghdr) (hk : first_pktinfo cs ≠ some (-1)) :
    scan_cmsg cs (-1) = (first_pktinfo cs).getD (-1) := by
  induction cs with
  | nil => rfl
  | cons c rest ih =>
    unfold scan_cmsg first_pktinfo pktinfo_index
    simp only [first_pktinfo, pktinfo_index] at hk
    by_cases h4 : c.cmsg_level = IPPROTO_IP ∧ c.cmsg_type = IP_PKTINFO
    · simp only [if_pos h4] at hk ⊢
      have hne : c.ipi_ifindex ≠ -1 := fun h => hk (by rw [h])
      simp [scan_cmsg_of_found rest _ hne]
    · by_cases h6 : c.cmsg_level = IPPROTO_IPV6 ∧ c.cmsg_type = IPV6_PKTINFO
      · simp only [if_neg h4, if_pos h6] at hk ⊢
        have hne : toInt32 c.ipi6_ifindex ≠ -1 := fun h => hk (by rw [h])
        simp [scan_cmsg_of_found rest _ hne]
      · simp only [if_neg h4, if_neg h6] at hk ⊢
        simpa using ih hk

/-- C1: on a read event without end-of-stream in which `recvmsg` returns a byte
count, for an entry with a positive index, `dns_handle_packet` is invoked exactly
when the first packet-info record of the ancillary data carries the entry's
index; it is then invoked once, with the entry and with the length `recvmsg`
returned, and not at all when there is no packet-info record or the index
differs.  The entry itself is left unchanged.  (A packet-info record never
carries the index -1, the value the scan uses for "not found".) -/
theorem read_socket_dispatches_on_first_pktinfo (iface : Interface) (r : RecvResult)
    (hidx : 0 < iface.ifindex) (heof : iface.eof = false)
    (hret : 0 ≤ r.ret) (hlt : r.ret < 4294967295)
    (hk : first_pktinfo r.control ≠ some (-1)) :
    handled (read_socket iface r).2 =
        (if first_pktinfo r.control = some iface.ifindex then [(iface.id, r.ret)] else []) ∧
      (first_pktinfo r.control = none → handled (read_socket iface r).2 = []) ∧
      (read_socket iface r).1 = iface := by
  have hlen : toUInt32 r.ret = r.ret := by
    unfold toUInt32; omega
  have hne : toUInt32 r.ret ≠ toUInt32 (-1) := by
    rw [hlen]; unfold toUInt32; omega
  have hscan := scan_cmsg_eq_first r.control hk
  have main : handled (read_socket iface r).2 =
      (if first_pktinfo r.control = some iface.ifindex then [(iface.id, r.ret)] else []) ∧
      (read_socket iface r).1 = iface := by
    unfold read_socket
    simp only [heof, hne, if_false, Bool.false_eq_true, hscan]
    cases hf : first_pktinfo r.control with
    | none =>
      have : (-1 : Int) ≠ iface.ifindex := by omega
      simp [this, handled]
    | some i =>
      by_cases hi : i = iface.ifindex
      · simp [hi, handled, hlen]
      · simp [hi, handled]
  refine ⟨main.1, ?_, main.2⟩
  intro hnone
  rw [main.1, hnone]
  simp

/-- Witness for C1: an IPv6 entry with index 3 receiving 100 bytes whose only
ancillary record is an `IPV6_PKTINFO` record for index 3. -/
theorem read_socket_dispatches_on_first_pktinfo_witness :
    handled (read_socket
      { name := "eth0", id := "1_eth0", ifindex := 3, v6 := true, mcast_addr := "ff02::fb",
        v4_addr := 0, v6_addr := 1, fd := 5, registered := true, eof := false,
        fd_cb := some FdCallback.read_socket, reconnect := none,
        reconnect_cb := some TimeoutCallback.reconnect_socket }
      { ret := 100,
        control := [{ cmsg_level := 41, cmsg_type := 50, ipi_ifindex := 0, ipi6_ifindex := 3 }] }).2
      = [("1_eth0", 100)] := by
  have h := (read_socket_dispatches_on_first_pktinfo
      { name := "eth0", id := "1_eth0", ifindex := 3, v6 := true, mcast_addr := "ff02::fb",
        v4_addr := 0, v6_addr := 1, fd := 5, registered := true, eof := false,
        fd_cb := some FdCallback.read_socket, reconnect := none,
        reconnect_cb := some TimeoutCallback.reconnect_socket }
      { ret := 100,
        control := [{ cmsg_level := 41, cmsg_type := 50, ipi_ifindex := 0, ipi6_ifindex := 3 }] }
      (by decide) rfl (by decide) (by decide) (by decide)).1
  rw [h]
  decide

/-! ## Send path: theorem -/

/-- C3: for an entry whose index is a positive `int`, `interface_send_packet` hands
`sendmsg` one message on the entry's socket whose payload is the caller's
segment array and count, whose control data is a single packet-info record
carrying the entry's index, and whose record and destination are
`IPPROTO_IP`/`IP_PKTINFO` and 224.0.0.251 port 5353 for an IPv4 entry,
`IPPROTO_IPV6`/`IPV6_PKTINFO` and ff02::fb port 5353 for an IPv6 entry. -/
theorem interface_send_packet_pins_interface (E : Interface) (iov : List (List Nat))
    (iov_len ret : Int) (hpos : 0 < E.ifindex) (hint : E.ifindex < 2147483648) :
    ∃ m c, (interface_send_packet E iov iov_len ret).2 = [Effect.sendmsg E.fd m] ∧
      m.msg_iov = iov ∧ m.msg_iovlen = iov_len ∧ m.msg_control = [c] ∧
      pktinfo_index c = some E.ifindex ∧
      (E.v6 = false → c.cmsg_level = IPPROTO_IP ∧ c.cmsg_type = IP_PKTINFO ∧
        c.ipi_ifindex = E.ifindex ∧
        m.msg_name = { family := AF_INET, port := 5353, addr := "224.0.0.251" }) ∧
      (E.v6 = true → c.cmsg_level = IPPROTO_IPV6 ∧ c.cmsg_type = IPV6_PKTINFO ∧
        c.ipi6_ifindex = E.ifindex ∧
        m.msg_name = { family := AF_INET6, port := 5353, addr := "ff02::fb" }) := by
  have hu : toUInt32 E.ifindex = E.ifindex := by unfold toUInt32; omega
  have hs : toInt32 E.ifindex = E.ifindex := by unfold toInt32; omega
  cases hv : E.v6
  · refine ⟨{ msg_name := { family := AF_INET, port := MCAST_PORT, addr := MCAST_ADDR },
              msg_iov := iov, msg_iovlen := iov_len,
              msg_control := [{ cmsg_level := IPPROTO_IP, cmsg_type := IP_PKTINFO,
                                ipi_ifindex := E.ifindex, ipi6_ifindex := 0 }] },
            { cmsg_level := IPPROTO_IP, cmsg_type := IP_PKTINFO,
              ipi_ifindex := E.ifindex, ipi6_ifindex := 0 }, ?_, rfl, rfl, rfl, ?_, ?_, ?_⟩
    · simp only [interface_send_packet, hv, Bool.false_eq_true, if_false,
        interface_send_packet4]
    · simp [pktinfo_index]
    · intro _
      exact ⟨rfl, rfl, rfl, rfl⟩
    · intro h; cases h
  · refine ⟨{ msg_name := { family := AF_INET6, port := MCAST_PORT, addr := MCAST_ADDR6 },
              msg_iov := iov, msg_iovlen := iov_len,
              msg_control := [{ cmsg_level := IPPROTO_IPV6, cmsg_type := IPV6_PKTINFO,
                                ipi_ifindex := 0, ipi6_ifindex := toUInt32 E.ifindex }] },
            { cmsg_level := IPPROTO_IPV6, cmsg_type := IPV6_PKTINFO,
              ipi_ifindex := 0, ipi6_ifindex := toUInt32 E.ifindex }, ?_, rfl, rfl, rfl, ?_, ?_, ?_⟩
    · simp only [interface_send_packet, hv, if_true, interface_send_packet6]
    · simp [pktinfo_index, hu, hs, IPPROTO_IPV6, IPPROTO_IP]
    · intro h; cases h
    · intro _
      exact ⟨rfl, rfl, hu, rfl⟩

/-- Witness for C3: an IPv6 entry with index 3 sending two segments. -/
theorem interface_send_packet_pins_interface_witness :
    ∃ m c, (interface_send_packet
        { name := "eth0", id := "1_eth0", ifindex := 3, v6 := true, mcast_addr := "ff02::fb",
          v4_addr := 0, v6_addr := 1, fd := 5, registered := true, eof := false,
          fd_cb := some FdCallback.read_socket, reconnect := none,
          reconnect_cb := some TimeoutCallback.reconnect_socket }
        [[0, 0, 132, 0], [1, 2, 3]] 2 7).2 = [Effect.sendmsg 5 m] ∧
      m.msg_iov = [[0, 0, 132, 0], [1, 2, 3]] ∧ m.msg_control = [c] ∧
      c.ipi6_ifindex = 3 := by
  obtain ⟨m, c, h1, h2, _, h4, _, _, h7⟩ := interface_send_packet_pins_interface
    { name := "eth0", id := "1_eth0", ifindex := 3, v6 := true, mcast_addr := "ff02::fb",
      v4_addr := 0, v6_addr := 1, fd := 5, registered := true, eof := false,
      fd_cb := some FdCallback.read_socket, reconnect := none,
      reconnect_cb := some TimeoutCallback.reconnect_socket }
    [[0, 0, 132, 0], [1, 2, 3]] 2 7 (by decide) (by decide)
  exact ⟨m, c, h1, h2, h4, (h7 rfl).2.2.1⟩

/-! ## End of stream: theorem -/

/-- C7: for an entry with a bound socket, a read event with the end-of-stream flag
set makes exactly these calls, in this order: one `announce_free`, one
`uloop_fd_delete`, one `close` of the socket, one `uloop_timeout_set` of 1000 ms;
the handle becomes -1, the descriptor is no longer registered and the reconnect
timer is pending with 1000 ms.  No `recvmsg` and no `dns_handle_packet` occur. -/
theorem read_socket_eof_closes_and_retries (iface : Interface) (r : RecvResult)
    (hfd : 0 ≤ iface.fd) (heof : iface.eof = true) :
    read_socket iface r =
      ({ iface with registered := false, fd := -1, reconnect := some 1000 },
       [Effect.announce_free iface.id, Effect.uloop_fd_delete iface.fd, Effect.close iface.fd,
        Effect.uloop_timeout_set 1000]) ∧
    handled (read_socket iface r).2 = [] ∧
    Effect.recvmsg iface.fd ∉ (read_socket iface r).2 := by
  have hnot : ¬ iface.fd < 0 := by omega
  have h : read_socket iface r =
      ({ iface with registered := false, fd := -1, reconnect := some 1000 },
       [Effect.announce_free iface.id, Effect.uloop_fd_delete iface.fd, Effect.close iface.fd,
        Effect.uloop_timeout_set 1000]) := by
    simp [read_socket, heof, interface_close, hnot]
  rw [h]
  simp [handled]

/-- Witness for C7: an active IPv4 entry on descriptor 5 whose socket reports
end-of-stream. -/
theorem read_socket_eof_closes_and_retries_witness :
    (read_socket
      { name := "eth0", id := "0_eth0", ifindex := 3, v6 := false, mcast_addr := "224.0.0.251",
        v4_addr := 3232235786, v6_addr := 0, fd := 5, registered := true, eof := true,
        fd_cb := some FdCallback.read_socket, reconnect := none,
        reconnect_cb := some TimeoutCallback.reconnect_socket }
      { ret := 0, control := [] }).2 =
      [Effect.announce_free "0_eth0", Effect.uloop_fd_delete 5, Effect.close 5,
       Effect.uloop_timeout_set 1000] :=
  congrArg Prod.snd (read_socket_eof_closes_and_retries
    { name := "eth0", id := "0_eth0", ifindex := 3, v6 := false, mcast_addr := "224.0.0.251",
      v4_addr := 3232235786, v6_addr := 0, fd := 5, registered := true, eof := true,
      fd_cb := some FdCallback.read_socket, reconnect := none,
      reconnect_cb := some TimeoutCallback.reconnect_socket }
    { ret := 0, control := [] } (by decide) rfl).1

/-! ## Connect attempts: theorems -/

theorem setsockopt_logged_cases (env : SockEnv) (fd : Int) (opt : SockOpt) (val : OptVal)
    (msg : String) :
    setsockopt_logged env fd opt val msg = [Effect.setsockopt fd opt val, Effect.fprintf msg] ∨
      setsockopt_logged env fd opt val msg = [Effect.setsockopt fd opt val] := by
  unfold setsockopt_logged
  split
  · exact Or.inl rfl
  · exact Or.inr rfl

@[simp] theorem closed_setsockopt_logged (env : SockEnv) (fd : Int) (opt : SockOpt)
    (val : OptVal) (msg : String) : closed (setsockopt_logged env fd opt val msg) = [] := by
  rcases setsockopt_logged_cases env fd opt val msg with h | h <;> rw [h] <;> rfl

@[simp] theorem timers_set_setsockopt_logged (env : SockEnv) (fd : Int) (opt : SockOpt)
    (val : OptVal) (msg : String) : timers_set (setsockopt_logged env fd opt val msg) = [] := by
  rcases setsockopt_logged_cases env fd opt val msg with h | h <;> rw [h] <;> rfl

@[simp] theorem registrations_setsockopt_logged (env : SockEnv) (fd : Int) (opt : SockOpt)
    (val : OptVal) (msg : String) :
    registrations (setsockopt_logged env fd opt val msg) = [] := by
  rcases setsockopt_logged_cases env fd opt val msg with h | h <;> rw [h] <;> rfl

@[simp] theorem questions_setsockopt_logged (env : SockEnv) (fd : Int) (opt : SockOpt)
    (val : OptVal) (msg : String) : questions (setsockopt_logged env fd opt val msg) = [] := by
  rcases setsockopt_logged_cases env fd opt val msg with h | h <;> rw [h] <;> rfl

@[simp] theorem announce_inits_setsockopt_logged (env : SockEnv) (fd : Int) (opt : SockOpt)
    (val : OptVal) (msg : String) :
    announce_inits (setsockopt_logged env fd opt val msg) = [] := by
  rcases setsockopt_logged_cases env fd opt val msg with h | h <;> rw [h] <;> rfl

@[simp] theorem closed_append (a b : List Effect) : closed (a ++ b) = closed a ++ closed b := by
  simp [closed]

@[simp] theorem timers_set_append (a b : List Effect) :
    timers_set (a ++ b) = timers_set a ++ timers_set b := by
  simp [timers_set]

@[simp] theorem registrations_append (a b : List Effect) :
    registrations (a ++ b) = registrations a ++ registrations b := by
  simp [registrations]

@[simp] theorem questions_append (a b : List Effect) :
    questions (a ++ b) = questions a ++ questions b := by
  simp [questions]

@[simp] theorem announce_inits_append (a b : List Effect) :
    announce_inits (a ++ b) = announce_inits a ++ announce_inits b := by
  simp [announce_inits]

theorem setup4_join_fails (env : SockEnv) (iface : Interface)
    (h : env.setsockopt iface.fd SockOpt.IP_ADD_MEMBERSHIP < 0) :
    (interface_socket_setup4 env iface).1 = -1 ∧
      observe (interface_socket_setup4 env iface).2 =
        { closed := [iface.fd], timers := [], registrations := [], questions := [],
          inits := [] } := by
  simp only [interface_socket_setup4, h, if_true, if_false, observe, closed_append,
    timers_set_append, registrations_append, questions_append, announce_inits_append,
    closed_setsockopt_logged, timers_set_setsockopt_logged, registrations_setsockopt_logged,
    questions_setsockopt_logged, announce_inits_setsockopt_logged]
  simp [closed, timers_set, registrations, questions, announce_inits]

theorem setup4_join_ok (env : SockEnv) (iface : Interface)
    (h : ¬ env.setsockopt iface.fd SockOpt.IP_ADD_MEMBERSHIP < 0) :
    (interface_socket_setup4 env iface).1 = 0 ∧
      observe (interface_socket_setup4 env iface).2 =
        { closed := [], timers := [], registrations := [], questions := [], inits := [] } := by
  simp only [interface_socket_setup4, h, if_true, if_false, observe, closed_append,
    timers_set_append, registrations_append, questions_append, announce_inits_append,
    closed_setsockopt_logged, timers_set_setsockopt_logged, registrations_setsockopt_logged,
    questions_setsockopt_logged, announce_inits_setsockopt_logged]
  simp [closed, timers_set, registrations, questions, announce_inits]

theorem setup6_join_fails (env : SockEnv) (iface : Interface)
    (h : env.setsockopt iface.fd SockOpt.IPV6_ADD_MEMBERSHIP < 0) :
    (interface_socket_setup6 env iface).1 = -1 ∧
      observe (interface_socket_setup6 env iface).2 =
        { closed := [iface.fd], timers := [], registrations := [], questions := [],
          inits := [] } := by
  simp only [interface_socket_setup6, h, if_true, if_false, observe, closed_append,
    timers_set_append, registrations_append, questions_append, announce_inits_append,
    closed_setsockopt_logged, timers_set_setsockopt_logged, registrations_setsockopt_logged,
    questions_setsockopt_logged, announce_inits_setsockopt_logged]
  simp [closed, timers_set, registrations, questions, announce_inits]

theorem setup6_join_ok (env : SockEnv) (iface : Interface)
    (h : ¬ env.setsockopt iface.fd SockOpt.IPV6_ADD_MEMBERSHIP < 0) :
    (interface_socket_setup6 env iface).1 = 0 ∧
      observe (interface_socket_setup6 env iface).2 =
        { closed := [], timers := [], registrations := [], questions := [], inits := [] } := by
  simp only [interface_socket_setup6, h, if_true, if_false, observe, closed_append,
    timers_set_append, registrations_append, questions_append, announce_inits_append,
    closed_setsockopt_logged, timers_set_setsockopt_logged, registrations_setsockopt_logged,
    questions_setsockopt_logged, announce_inits_setsockopt_logged]
  simp [closed, timers_set, registrations, questions, announce_inits]

theorem observe_append (a b : List Effect) :
    observe (a ++ b) =
      { closed := (observe a).closed ++ (observe b).closed,
        timers := (observe a).timers ++ (observe b).timers,
        registrations := (observe a).registrations ++ (observe b).registrations,
        questions := (observe a).questions ++ (observe b).questions,
        inits := (observe a).inits ++ (observe b).inits } := by
  simp [observe]

theorem reconnect_socket_usock_fails (env : SockEnv) (iface : Interface)
    (h : usock_result env iface = none) :
    reconnect_socket env iface =
      ({ iface with fd := -1, reconnect := some 1000 },
       [Effect.usock (reconnect_type iface) (reconnect_mcast_addr iface) "5353",
        Effect.fprintf "failed to add listener", Effect.uloop_timeout_set 1000]) := by
  have hu : env.usock (reconnect_type iface) (reconnect_mcast_addr iface) "5353" = none := h
  simp [reconnect_socket, hu, reconnect_retry]

theorem reconnect_socket_join_fails (env : SockEnv) (iface : Interface) (d : Nat)
    (h : usock_result env iface = some d) (hj : join_result env iface d < 0) :
    (reconnect_socket env iface).1 = { iface with fd := -1, reconnect := some 1000 } ∧
      observe (reconnect_socket env iface).2 =
        { closed := [(d : Int)], timers := [1000], registrations := [], questions := [],
          inits := [] } := by
  have hu : env.usock (reconnect_type iface) (reconnect_mcast_addr iface) "5353" = some d := h
  have hd : ¬ ((d : Int) < 0) := by omega
  cases hv : iface.v6
  · have hj4 : env.setsockopt (d : Int) SockOpt.IP_ADD_MEMBERSHIP < 0 := by
      simpa [join_result, hv] using hj
    obtain ⟨h1, h2⟩ := setup4_join_fails env { iface with fd := (d : Int) } hj4
    have key : reconnect_socket env iface =
        ({ iface with fd := -1, reconnect := some 1000 },
         [Effect.usock (reconnect_type iface) (reconnect_mcast_addr iface) "5353"] ++
           (interface_socket_setup4 env { iface with fd := (d : Int) }).2 ++
           [Effect.uloop_timeout_set 1000]) := by
      simp only [hv] at h1
      simp [reconnect_socket, hu, hd, hv, h1, reconnect_retry]
    rw [key]
    refine ⟨by simp [hv], ?_⟩
    simp only [observe_append, h2]
    simp [observe, closed, timers_set, registrations, questions, announce_inits]
  · have hj6 : env.setsockopt (d : Int) SockOpt.IPV6_ADD_MEMBERSHIP < 0 := by
      simpa [join_result, hv] using hj
    obtain ⟨h1, h2⟩ := setup6_join_fails env { iface with fd := (d : Int) } hj6
    have key : reconnect_socket env iface =
        ({ iface with fd := -1, reconnect := some 1000 },
         [Effect.usock (reconnect_type iface) (reconnect_mcast_addr iface) "5353"] ++
           (interface_socket_setup6 env { iface with fd := (d : Int) }).2 ++
           [Effect.uloop_timeout_set 1000]) := by
      simp only [hv] at h1
      simp [reconnect_socket, hu, hd, hv, h1, reconnect_retry]
    rw [key]
    refine ⟨by simp [hv], ?_⟩
    simp only [observe_append, h2]
    simp [observe, closed, timers_set, registrations, questions, announce_inits]

theorem reconnect_socket_connects (env : SockEnv) (iface : Interface) (d : Nat)
    (h : usock_result env iface = some d) (hj : ¬ join_result env iface d < 0) :
    (reconnect_socket env iface).1 =
        { iface with fd := (d : Int), registered := true, eof := false } ∧
      observe (reconnect_socket env iface).2 =
        { closed := [], timers := [], registrations := [((d : Int), UloopFlag.ULOOP_READ)],
          questions := [(iface.id, "_services._dns-sd._udp.local", TYPE_PTR)],
          inits := [iface.id] } := by
  have hu : env.usock (reconnect_type iface) (reconnect_mcast_addr iface) "5353" = some d := h
  have hd : ¬ ((d : Int) < 0) := by omega
  cases hv : iface.v6
  · have hj4 : ¬ env.setsockopt (d : Int) SockOpt.IP_ADD_MEMBERSHIP < 0 := by
      simpa [join_result, hv] using hj
    obtain ⟨h1, h2⟩ := setup4_join_ok env { iface with fd := (d : Int) } hj4
    have key : reconnect_socket env iface =
        ({ iface with fd := (d : Int), registered := true, eof := false },
         [Effect.usock (reconnect_type iface) (reconnect_mcast_addr iface) "5353"] ++
           (interface_socket_setup4 env { iface with fd := (d : Int) }).2 ++
           [Effect.uloop_fd_add (d : Int) UloopFlag.ULOOP_READ,
            Effect.dns_send_question iface.id "_services._dns-sd._udp.local" TYPE_PTR,
            Effect.announce_init iface.id]) := by
      simp only [hv] at h1
      simp [reconnect_socket, hu, hd, hv, h1, reconnect_retry]
    rw [key]
    refine ⟨by simp [hv], ?_⟩
    simp only [observe_append, h2]
    simp [observe, closed, timers_set, registrations, questions, announce_inits]
  · have hj6 : ¬ env.setsockopt (d : Int) SockOpt.IPV6_ADD_MEMBERSHIP < 0 := by
      simpa [join_result, hv] using hj
    obtain ⟨h1, h2⟩ := setup6_join_ok env { iface with fd := (d : Int) } hj6
    have key : reconnect_socket env iface =
        ({ iface with fd := (d : Int), registered := true, eof := false },
         [Effect.usock (reconnect_type iface) (reconnect_mcast_addr iface) "5353"] ++
           (interface_socket_setup6 env { iface with fd := (d : Int) }).2 ++
           [Effect.uloop_fd_add (d : Int) UloopFlag.ULOOP_READ,
            Effect.dns_send_question iface.id "_services._dns-sd._udp.local" TYPE_PTR,
            Effect.announce_init iface.id]) := by
      simp only [hv] at h1
      simp [reconnect_socket, hu, hd, hv, h1, reconnect_retry]
    rw [key]
    refine ⟨by simp [hv], ?_⟩
    simp only [observe_append, h2]
    simp [observe, closed, timers_set, registrations, questions, announce_inits]

theorem reconnect_socket_fails (env : SockEnv) (iface : Interface)
    (hf : attempt_fails env iface) :
    (reconnect_socket env iface).1 = { iface with fd := -1, reconnect := some 1000 } ∧
      observe (reconnect_socket env iface).2 =
        { closed := (match usock_result env iface with
                     | some d => [(d : Int)]
                     | none => []),
          timers := [1000], registrations := [], questions := [], inits := [] } := by
  unfold attempt_fails at hf
  cases hu : usock_result env iface with
  | none =>
    rw [reconnect_socket_usock_fails env iface hu]
    refine ⟨rfl, ?_⟩
    simp [observe, closed, timers_set, registrations, questions, announce_inits]
  | some d =>
    rw [hu] at hf
    exact reconnect_socket_join_fails env iface d hu hf

theorem fire_timers_fail (envs : List SockEnv) :
    ∀ (s : Interface), s.reconnect.isSome = true →
      s.reconnect_cb = some TimeoutCallback.reconnect_socket →
      (∀ e ∈ envs, attempt_fails e s) → envs ≠ [] →
      fire_timers s envs = some { s with fd := -1, reconnect := some 1000 } := by
  induction envs with
  | nil => intro s _ _ _ h; exact absurd rfl h
  | cons env rest ih =>
    intro s hp hcb hall _
    have hf : attempt_fails env { s with reconnect := none } := hall env (by simp)
    have hstep : step s (Event.timeout env) =
        some (reconnect_socket env { s with reconnect := none }) := by
      cases hr : s.reconnect with
      | none => rw [hr] at hp; cases hp
      | some ms => simp [step, hr, hcb]
    have h1 := (reconnect_socket_fails env { s with reconnect := none } hf).1
    simp only [fire_timers, hstep, h1]
    cases rest with
    | nil => rfl
    | cons e2 rest2 =>
      have := ih { s with fd := -1, reconnect := some 1000 } rfl hcb
        (fun e he => hall e (List.mem_cons_of_mem _ he)) (by simp)
      simpa using this

/-- C5: in a connect attempt in which socket creation fails or the multicast group
join fails, the reconnect timer is armed once, for 1000 ms; the handle is left at
-1; a socket opened during the attempt is closed exactly once (nothing is closed
when none was opened); and the socket is not registered with the event loop, no
question is sent and `announce_init` is not called.  Consequently, when the
timer of an entry is pending and every attempt fails, any number of successive
timer expiries is delivered and leaves the timer pending with 1000 ms. -/
theorem reconnect_failure_retries_after_1000ms (env : SockEnv) (iface : Interface)
    (envs : List SockEnv) (hf : attempt_fails env iface)
    (hall : ∀ e ∈ envs, attempt_fails e iface) :
    (reconnect_socket env iface).1 = { iface with fd := -1, reconnect := some 1000 } ∧
      observe (reconnect_socket env iface).2 =
        { closed := (match usock_result env iface with
                     | some d => [(d : Int)]
                     | none => []),
          timers := [1000], registrations := [], questions := [], inits := [] } ∧
      (iface.reconnect.isSome = true →
        iface.reconnect_cb = some TimeoutCallback.reconnect_socket →
        fire_timers iface (env :: envs) =
          some { iface with fd := -1, reconnect := some 1000 }) := by
  refine ⟨(reconnect_socket_fails env iface hf).1, (reconnect_socket_fails env iface hf).2, ?_⟩
  intro hp hcb
  refine fire_timers_fail (env :: envs) iface hp hcb ?_ (by simp)
  intro e he
  rcases List.mem_cons.mp he with h | h
  · rw [h]; exact hf
  · exact hall e h

/-- Witness for C5: the IPv4 entry of `eth0`, a first attempt in which the join
fails on descriptor 5, followed by two attempts in which `usock` fails. -/
theorem reconnect_failure_retries_after_1000ms_witness :
    observe (reconnect_socket env_no_join eth0_v4).2 =
        { closed := [5], timers := [1000], registrations := [], questions := [], inits := [] } ∧
      fire_timers eth0_v4 [env_no_join, env_no_socket, env_no_socket] =
        some { eth0_v4 with fd := -1, reconnect := some 1000 } := by
  have h := reconnect_failure_retries_after_1000ms env_no_join eth0_v4
    [env_no_socket, env_no_socket]
    (by simp [attempt_fails, usock_result, join_result, env_no_join])
    (by
      intro e he
      simp only [List.mem_cons, List.mem_singleton, List.not_mem_nil, or_false, or_self] at he
      rw [he]
      simp [attempt_fails, usock_result, env_no_socket])
  exact ⟨h.2.1, h.2.2 rfl rfl⟩

/-- C6: in a connect attempt in which socket creation and the multicast group join
both succeed, whatever every other `setsockopt` returns, the entry ends up bound
to the new descriptor and registered; the trace holds exactly one registration
of that descriptor for read events, exactly one question, `PTR` for
`_services._dns-sd._udp.local`, on this entry, exactly one `announce_init` for
this entry, no close and no arming of the reconnect timer; run from the event
loop, the attempt leaves no reconnect timer pending. -/
theorem reconnect_success_activates_once (env : SockEnv) (iface : Interface) (d : Nat)
    (hu : usock_result env iface = some d) (hj : 0 ≤ join_result env iface d) :
    (reconnect_socket env iface).1 =
        { iface with fd := (d : Int), registered := true, eof := false } ∧
      observe (reconnect_socket env iface).2 =
        { closed := [], timers := [], registrations := [((d : Int), UloopFlag.ULOOP_READ)],
          questions := [(iface.id, "_services._dns-sd._udp.local", TYPE_PTR)],
          inits := [iface.id] } ∧
      (iface.reconnect.isSome = true →
        iface.reconnect_cb = some TimeoutCallback.reconnect_socket →
        ∃ effs, step iface (Event.timeout env) =
          some ({ iface with fd := (d : Int), registered := true, eof := false,
                             reconnect := none }, effs)) := by
  have hj2 : ¬ join_result env iface d < 0 := by omega
  refine ⟨(reconnect_socket_connects env iface d hu hj2).1,
    (reconnect_socket_connects env iface d hu hj2).2, ?_⟩
  intro hp hcb
  have h1 := (reconnect_socket_connects env { iface with reconnect := none } d hu hj2).1
  refine ⟨(reconnect_socket env { iface with reconnect := none }).2, ?_⟩
  have hstep : step iface (Event.timeout env) =
      some (reconnect_socket env { iface with reconnect := none }) := by
    cases hr : iface.reconnect with
    | none => rw [hr] at hp; cases hp
    | some ms => simp [step, hr, hcb]
  rw [hstep]
  exact congrArg some (Prod.ext h1 rfl)

/-- Witness for C6: the IPv6 entry of `eth0`, an attempt in which `usock` yields
descriptor 5, the join succeeds and every other option fails. -/
theorem reconnect_success_activates_once_witness :
    observe (reconnect_socket env_join_only eth0_v6).2 =
      { closed := [], timers := [], registrations := [(5, UloopFlag.ULOOP_READ)],
        questions := [("1_eth0", "_services._dns-sd._udp.local", 12)],
        inits := ["1_eth0"] } :=
  (reconnect_success_activates_once env_join_only eth0_v6 5 rfl (by decide)).2.1

/-! ## State machine: theorems -/

theorem read_socket_state_no_eof (i : Interface) (r : RecvResult) (h : i.eof = false) :
    (read_socket i r).1 = i := by
  unfold read_socket
  simp only [h, Bool.false_eq_true, if_false]
  split
  · rfl
  · split <;> rfl

theorem read_socket_state_eof (i : Interface) (r : RecvResult) (h : i.eof = true)
    (hfd : 0 ≤ i.fd) :
    (read_socket i r).1 = { i with registered := false, fd := -1, reconnect := some 1000 } := by
  have hnot : ¬ i.fd < 0 := by omega
  simp [read_socket, h, interface_close, hnot]

theorem reconnect_socket_state (env : SockEnv) (i : Interface) :
    (reconnect_socket env i).1 = { i with fd := -1, reconnect := some 1000 } ∨
      ∃ d : Nat, (reconnect_socket env i).1 =
        { i with fd := (d : Int), registered := true, eof := false } := by
  cases hu : usock_result env i with
  | none =>
    left
    exact (reconnect_socket_fails env i (by simp [attempt_fails, hu])).1
  | some d =>
    by_cases hj : join_result env i d < 0
    · left
      exact (reconnect_socket_join_fails env i d hu hj).1
    · right
      exact ⟨d, (reconnect_socket_connects env i d hu hj).1⟩

theorem step_timeout_some (s : Interface) (env : SockEnv) (x : Interface × List Effect)
    (h : step s (Event.timeout env) = some x) :
    s.reconnect ≠ none ∧ x = reconnect_socket env { s with reconnect := none } := by
  simp only [step] at h
  split at h
  · rename_i ms hr hcb
    refine ⟨by rw [hr]; simp, ?_⟩
    injection h with h
    exact h.symm
  · cases h

theorem step_readable_some (s : Interface) (eof : Bool) (r : RecvResult)
    (x : Interface × List Effect) (h : step s (Event.readable eof r) = some x) :
    s.registered = true ∧ x = read_socket { s with eof := s.eof || eof } r := by
  simp only [step] at h
  split at h
  · rename_i hreg
    split at h
    · refine ⟨hreg, ?_⟩
      injection h with h
      exact h.symm
    · cases h
  · cases h

theorem reachable_retrying_or_active (s : Interface) (h : Reachable s) :
    retrying s ∨ active s := by
  induction h with
  | start iface hfd hreg =>
    left
    exact ⟨hfd, hreg, rfl⟩
  | next s s1 ev effs _ hstep ih =>
    cases ev with
    | timeout env =>
      obtain ⟨hpend, hx⟩ := step_timeout_some s env _ hstep
      have hretry : retrying s := by
        rcases ih with hr | ha
        · exact hr
        · exact absurd ha.2.2 hpend
      have hs1 : s1 = (reconnect_socket env { s with reconnect := none }).1 :=
        congrArg Prod.fst hx
      rcases reconnect_socket_state env { s with reconnect := none } with h1 | ⟨d, h1⟩
      · left
        rw [hs1, h1]
        exact ⟨rfl, hretry.2.1, rfl⟩
      · right
        rw [hs1, h1]
        exact ⟨Int.ofNat_nonneg d, rfl, rfl⟩
    | readable eof r =>
      obtain ⟨hreg, hx⟩ := step_readable_some s eof r _ hstep
      have hact : active s := by
        rcases ih with hr | ha
        · rw [hr.2.1] at hreg; cases hreg
        · exact ha
      have hs1 : s1 = (read_socket { s with eof := s.eof || eof } r).1 :=
        congrArg Prod.fst hx
      cases he : (s.eof || eof)
      · right
        have h1 := read_socket_state_no_eof { s with eof := s.eof || eof } r he
        rw [hs1, h1]
        exact hact
      · left
        have h1 := read_socket_state_eof { s with eof := s.eof || eof } r he hact.1
        rw [hs1, h1]
        exact ⟨rfl, rfl, rfl⟩

/-- C10: in every state of an entry reachable from `interface_start` by expiries of
the reconnect timer and read events, with arbitrary outcomes of `usock`,
`setsockopt` and `recvmsg`, exactly one of these holds: (a) the handle is -1, the
socket is not registered and the reconnect timer is pending; (b) the handle is
non-negative, the socket is registered and no reconnect timer is pending.
Hence a reconnect attempt only ever starts with the handle at -1, and the entry
always has a socket or a pending retry. -/
theorem reachable_state_invariant (s : Interface) (h : Reachable s) :
    ((retrying s ∧ ¬ active s) ∨ (active s ∧ ¬ retrying s)) ∧
      (∀ env r, step s (Event.timeout env) = some r → s.fd = -1) ∧
      (0 ≤ s.fd ∨ s.reconnect.isSome = true) := by
  have hinv := reachable_retrying_or_active s h
  refine ⟨?_, ?_, ?_⟩
  · rcases hinv with hr | ha
    · left
      refine ⟨hr, ?_⟩
      intro ha
      have := ha.1
      rw [hr.1] at this
      omega
    · right
      refine ⟨ha, ?_⟩
      intro hr
      have := ha.1
      rw [hr.1] at this
      omega
  · intro env r hstep
    rcases hinv with hr | ha
    · exact hr.1
    · simp [step, ha.2.2] at hstep
  · rcases hinv with hr | ha
    · exact Or.inr hr.2.2
    · exact Or.inl ha.1

/-- Witness for C10: the IPv4 entry of `eth0` after `interface_start` and one expiry
of the timer in which the attempt succeeds on descriptor 5 is reachable, and is
in state (b). -/
theorem reachable_state_invariant_witness :
    active (reconnect_socket env_join_only
        { (interface_start eth0_v4_fresh).1 with reconnect := none }).1 ∧
      ¬ retrying (reconnect_socket env_join_only
        { (interface_start eth0_v4_fresh).1 with reconnect := none }).1 := by
  have hreach : Reachable (reconnect_socket env_join_only
      { (interface_start eth0_v4_fresh).1 with reconnect := none }).1 :=
    Reachable.next (interface_start eth0_v4_fresh).1 _ (Event.timeout env_join_only)
      (reconnect_socket env_join_only
        { (interface_start eth0_v4_fresh).1 with reconnect := none }).2
      (Reachable.start eth0_v4_fresh rfl rfl) rfl
  rcases (reachable_state_invariant _ hreach).1 with h | h
  · exfalso
    have h1 := h.1.1
    have h2 := (reconnect_socket_connects env_join_only
      { (interface_start eth0_v4_fresh).1 with reconnect := none } 5 rfl (by decide)).1
    rw [h2] at h1
    exact absurd h1 (by decide)
  · exact h

/-! ## Registration: theorems -/

@[simp] theorem submitted_keys_append (a b : List Effect) :
    submitted_keys (a ++ b) = submitted_keys a ++ submitted_keys b := by
  simp [submitted_keys]

theorem get_iface_ipv4_keeps (env : AddEnv) (i : Interface) :
    (get_iface_ipv4 env i).2.1.id = i.id ∧ submitted_keys (get_iface_ipv4 env i).2.2 = [] := by
  unfold get_iface_ipv4
  split
  · exact ⟨rfl, rfl⟩
  · dsimp only
    split
    · exact ⟨rfl, rfl⟩
    · split <;> exact ⟨rfl, rfl⟩

theorem get_iface_ipv6_keeps (env : AddEnv) (i : Interface) :
    (get_iface_ipv6 env i).2.1.id = i.id ∧ submitted_keys (get_iface_ipv6 env i).2.2 = [] := by
  unfold get_iface_ipv6
  split
  · exact ⟨rfl, rfl⟩
  · dsimp only
    split <;> exact ⟨rfl, rfl⟩

theorem submitted_keys_interface_free (i : Interface) :
    submitted_keys (interface_free i).2 = [] := by
  unfold interface_free interface_close
  split <;> rfl

theorem submitted_keys_vlist_add (w : World) (node : Interface) (key : String) :
    submitted_keys (vlist_add w node key).2 = [key] := by
  unfold vlist_add iface_update_cb
  cases w.interfaces.find? (fun n => n.id = key) with
  | none => rfl
  | some old =>
    have h := submitted_keys_interface_free old
    simp only [submitted_keys] at h ⊢
    simp [h, interface_start]

@[simp] theorem submitted_keys_nil : submitted_keys [] = [] := rfl

@[simp] theorem submitted_keys_cons_lookup (n : String) (l : List Effect) :
    submitted_keys (Effect.if_nametoindex n :: l) = submitted_keys l := rfl

@[simp] theorem submitted_keys_cons_free (i : String) (l : List Effect) :
    submitted_keys (Effect.free i :: l) = submitted_keys l := rfl

theorem key_v4 (name : String) : ("0" ++ "_" ++ name : String) = "0_" ++ name := by
  rw [show ("0" ++ "_" : String) = "0_" from by decide]

theorem key_v6 (name : String) : ("1" ++ "_" ++ name : String) = "1_" ++ name := by
  rw [show ("1" ++ "_" : String) = "1_" from by decide]

theorem interface_add_v4_result (env : AddEnv) (w : World) (name : String) :
    (_interface_add env w name false).1 = (if ipv4_resolved env name then 0 else -1) ∧
      submitted_keys (_interface_add env w name false).2.2 =
        (if ipv4_resolved env name then ["0_" ++ name] else []) ∧
      (ipv4_resolved env name = false →
        (_interface_add env w name false).2.1.interfaces = w.interfaces) := by
  have hk := get_iface_ipv4_keeps env (new_interface env name false)
  have hid : (new_interface env name false).id = "0_" ++ name := by
    simp [new_interface, key_v4]
  have hidx : (new_interface env name false).ifindex = toInt32 (env.if_nametoindex name) := rfl
  unfold ipv4_resolved _interface_add
  by_cases h0 : toInt32 (env.if_nametoindex name) ≤ 0
  · have hn : ¬ (0 < toInt32 (env.if_nametoindex name)) := by omega
    simp [hidx, h0, hn, interface_add_error]
  · have hp : 0 < toInt32 (env.if_nametoindex name) := by omega
    by_cases h4 : (get_iface_ipv4 env (new_interface env name false)).1 = 0
    · simp [hidx, h0, hp, h4, submitted_keys_vlist_add, hk.1, hk.2, hid]
    · simp [hidx, h0, hp, h4, interface_add_error, hk.2]

theorem interface_add_v6_result (env : AddEnv) (w : World) (name : String) :
    (_interface_add env w name true).1 = (if ipv6_resolved env name then 0 else -1) ∧
      submitted_keys (_interface_add env w name true).2.2 =
        (if ipv6_resolved env name then ["1_" ++ name] else []) ∧
      (ipv6_resolved env name = false →
        (_interface_add env w name true).2.1.interfaces = w.interfaces) := by
  have hk := get_iface_ipv6_keeps env (new_interface env name true)
  have hid : (new_interface env name true).id = "1_" ++ name := by
    simp [new_interface, key_v6]
  have hidx : (new_interface env name true).ifindex = toInt32 (env.if_nametoindex name) := rfl
  unfold ipv6_resolved _interface_add
  by_cases h0 : toInt32 (env.if_nametoindex name) ≤ 0
  · have hn : ¬ (0 < toInt32 (env.if_nametoindex name)) := by omega
    simp [hidx, h0, hn, interface_add_error]
  · have hp : 0 < toInt32 (env.if_nametoindex name) := by omega
    by_cases h6 : (get_iface_ipv6 env (new_interface env name true)).1 = 0
    · simp [hidx, h0, hp, h6, submitted_keys_vlist_add, hk.1, hk.2, hid]
    · simp [hidx, h0, hp, h6, interface_add_error, hk.2]

/-- C2: `interface_add(name)` returns 0 exactly when at least one of the IPv4 and
IPv6 resolutions succeeds, and the keys it submits to the registry are `0_name`
exactly when the index is positive and the IPv4 resolution succeeds, followed by
`1_name` exactly when the index is positive and the IPv6 resolution succeeds.  A
name without a positive interface index returns failure, submits nothing and
leaves the registry as it was; a name for which only IPv4 resolves returns 0 and
submits exactly `0_name`. -/
theorem interface_add_succeeds_iff_a_family_resolves (env : AddEnv) (w : World)
    (name : String) :
    ((interface_add env w name).1 = 0 ↔
        (ipv4_resolved env name = true ∨ ipv6_resolved env name = true)) ∧
      submitted_keys (interface_add env w name).2.2 =
        (if ipv4_resolved env name then ["0_" ++ name] else []) ++
          (if ipv6_resolved env name then ["1_" ++ name] else []) ∧
      (toInt32 (env.if_nametoindex name) ≤ 0 →
        (interface_add env w name).1 ≠ 0 ∧
          submitted_keys (interface_add env w name).2.2 = [] ∧
          (interface_add env w name).2.1.interfaces = w.interfaces) ∧
      (ipv4_resolved env name = true → ipv6_resolved env name = false →
        (interface_add env w name).1 = 0 ∧
          submitted_keys (interface_add env w name).2.2 = ["0_" ++ name]) := by
  obtain ⟨a1, a2, a3⟩ := interface_add_v4_result env w name
  obtain ⟨b1, b2, b3⟩ :=
    interface_add_v6_result env (_interface_add env w name false).2.1 name
  have hret : (interface_add env w name).1 = 0 ↔
      (ipv4_resolved env name = true ∨ ipv6_resolved env name = true) := by
    simp only [interface_add, a1, b1]
    cases ipv4_resolved env name <;> cases ipv6_resolved env name <;> simp
  have hkeys : submitted_keys (interface_add env w name).2.2 =
      (if ipv4_resolved env name then ["0_" ++ name] else []) ++
        (if ipv6_resolved env name then ["1_" ++ name] else []) := by
    simp only [interface_add, submitted_keys_append, a2, b2]
  refine ⟨hret, hkeys, ?_, ?_⟩
  · intro hidx
    have hn : ¬ (0 < toInt32 (env.if_nametoindex name)) := by omega
    have h4 : ipv4_resolved env name = false := by simp [ipv4_resolved, hn]
    have h6 : ipv6_resolved env name = false := by simp [ipv6_resolved, hn]
    refine ⟨?_, ?_, ?_⟩
    · rw [Ne, hret, h4, h6]; simp
    · rw [hkeys, h4, h6]; rfl
    · have := b3 h6
      simp only [interface_add]
      rw [this, a3 h4]
  · intro h4 h6
    refine ⟨hret.mpr (Or.inl h4), ?_⟩
    rw [hkeys, h4, h6]; rfl

/-- Witness for C2: on a host where `eth0` has an IPv4 address and no IPv6 source
address, `interface_add("eth0")` returns 0 and submits exactly `0_eth0`, while
`interface_add("wlan0")` for the absent `wlan0` fails and submits nothing. -/
theorem interface_add_succeeds_iff_a_family_resolves_witness :
    ((interface_add env_eth0_v4_only world_empty "eth0").1 = 0 ∧
        submitted_keys (interface_add env_eth0_v4_only world_empty "eth0").2.2 = ["0_eth0"]) ∧
      ((interface_add env_eth0_v4_only world_empty "wlan0").1 ≠ 0 ∧
        submitted_keys (interface_add env_eth0_v4_only world_empty "wlan0").2.2 = []) := by
  refine ⟨?_, ?_⟩
  · exact (interface_add_succeeds_iff_a_family_resolves env_eth0_v4_only world_empty
      "eth0").2.2.2 (by decide) (by decide)
  · have h := (interface_add_succeeds_iff_a_family_resolves env_eth0_v4_only world_empty
      "wlan0").2.2.1 (by decide)
    exact ⟨h.1, h.2.1⟩

/-! ## Re-submitting a key, and releasing an entry: theorems -/

theorem iface_update_cb_both (node old : Interface) :
    iface_update_cb (some node) (some old) =
      (some (interface_start node).1, some (interface_free old).1,
       (interface_free old).2 ++ (interface_start node).2) := rfl

/-- C4 (counterexample): the registry holds the active IPv4 entry of `eth0` under the
key `0_eth0`, bound to descriptor 5.  Submitting that key again, directly to the
update callback or through `_interface_add`, performs `interface_free` on the
existing entry (its socket is deregistered and closed, the entry released) and
`interface_start` on the new one, which replaces it in the registry. -/
theorem readd_destroys_running_entry :
    world_eth0_running.interfaces.find? (fun n => n.id = "0_eth0") = some eth0_v4_running ∧
      iface_update_cb (some eth0_v4_fresh) (some eth0_v4_running) =
        (some eth0_v4, some { eth0_v4_running with fd := -1, registered := false },
         [Effect.announce_free "0_eth0", Effect.uloop_fd_delete 5, Effect.close 5,
          Effect.free "0_eth0", Effect.uloop_timeout_set 100]) ∧
      _interface_add env_eth0_v4_only world_eth0_running "eth0" false =
        (0,
         { interfaces := [eth0_v4],
           released := [{ eth0_v4_running with fd := -1, registered := false }] },
         [Effect.if_nametoindex "eth0", Effect.socket 2, Effect.ioctl_SIOCGIFADDR 7 "eth0",
          Effect.close 7, Effect.vlist_add "0_eth0", Effect.announce_free "0_eth0",
          Effect.uloop_fd_delete 5, Effect.close 5, Effect.free "0_eth0",
          Effect.uloop_timeout_set 100]) := by
  refine ⟨by decide, by decide, by decide⟩

/-- C4 (amended): when a key already present in the registry is submitted again, the
update callback is invoked with the new and the existing node: it performs
`interface_free` on the existing entry, closing its socket when one is bound and
releasing the entry, and `interface_start` on the new entry, arming its timer
for 100 ms; the new entry takes the place of the existing one, and the entries
under other keys stay in the registry. -/
theorem resubmitted_key_replaces_entry (w : World) (node old : Interface) (key : String)
    (hfind : w.interfaces.find? (fun n => n.id = key) = some old) :
    iface_update_cb (some node) (some old) =
        (some (interface_start node).1, some (interface_free old).1,
         (interface_free old).2 ++ (interface_start node).2) ∧
      vlist_add w node key =
        ({ interfaces :=
             w.interfaces.eraseP (fun n => n.id = key) ++ [(interface_start node).1],
           released := w.released ++ [(interface_free old).1] },
         Effect.vlist_add key :: ((interface_free old).2 ++ (interface_start node).2)) ∧
      closed (vlist_add w node key).2 = (if old.fd < 0 then [] else [old.fd]) ∧
      freed (vlist_add w node key).2 = [old.id] ∧
      timers_set (vlist_add w node key).2 = [100] ∧
      (∀ e ∈ w.interfaces, e.id ≠ key → e ∈ (vlist_add w node key).1.interfaces) := by
  have hv : vlist_add w node key =
      ({ interfaces :=
           w.interfaces.eraseP (fun n => n.id = key) ++ [(interface_start node).1],
         released := w.released ++ [(interface_free old).1] },
       Effect.vlist_add key :: ((interface_free old).2 ++ (interface_start node).2)) := by
    simp only [vlist_add, hfind, iface_update_cb_both, Option.toList]
  refine ⟨rfl, hv, ?_, ?_, ?_, ?_⟩
  · rw [hv]
    by_cases hfd : old.fd < 0
    · simp [closed, interface_free, interface_close, interface_start, hfd]
    · simp [closed, interface_free, interface_close, interface_start, hfd]
  · rw [hv]
    by_cases hfd : old.fd < 0
    · simp [freed, interface_free, interface_close, interface_start, hfd]
    · simp [freed, interface_free, interface_close, interface_start, hfd]
  · rw [hv]
    by_cases hfd : old.fd < 0
    · simp [timers_set, interface_free, interface_close, interface_start, hfd]
    · simp [timers_set, interface_free, interface_close, interface_start, hfd]
  · intro e he hne
    rw [hv]
    apply List.mem_append_left
    exact (List.mem_eraseP_of_neg (by simpa using hne)).mpr he

/-- Witness for C4 (amended): the registry holding the active entry `0_eth0` on
descriptor 5, to which the key `0_eth0` is submitted again. -/
theorem resubmitted_key_replaces_entry_witness :
    closed (vlist_add world_eth0_running eth0_v4_fresh "0_eth0").2 = [5] ∧
      freed (vlist_add world_eth0_running eth0_v4_fresh "0_eth0").2 = ["0_eth0"] ∧
      timers_set (vlist_add world_eth0_running eth0_v4_fresh "0_eth0").2 = [100] := by
  have h := resubmitted_key_replaces_entry world_eth0_running eth0_v4_fresh eth0_v4_running
    "0_eth0" (by decide)
  exact ⟨h.2.2.1, h.2.2.2.1, h.2.2.2.2.1⟩

/-- C8: `interface_free` never touches the reconnect timer: the entry is handed to
`free` with the timer in the state it had.  The idle entry `0_eth0`, whose timer
`interface_start` armed for 100 ms, is released with that timer still pending,
and no call but `free` is made; this happens when `interface_add("eth0")` is
called a second time before the timer of the first entry expires. -/
theorem interface_free_leaves_timer_pending :
    (∀ iface : Interface, (interface_free iface).1.reconnect = iface.reconnect) ∧
      interface_free eth0_v4 = (eth0_v4, [Effect.free "0_eth0"]) ∧
      eth0_v4.reconnect = some 100 ∧
      eth0_v4 ∈ (interface_add env_eth0_v4_only
        (interface_add env_eth0_v4_only world_empty "eth0").2.1 "eth0").2.1.released := by
  refine ⟨?_, by decide, rfl, by decide⟩
  intro iface
  unfold interface_free interface_close
  split <;> rfl

/-- For an IPv6 entry whose group address is `ff02::fb`, the address formatted by
`reconnect_socket` is the complete `ff02::fb%name` exactly when the interface
name has at most 6 characters. -/
theorem reconnect_mcast_addr_v6_complete_iff (i : Interface) (hv6 : i.v6 = true)
    (hm : i.mcast_addr = MCAST_ADDR6) :
    reconnect_mcast_addr i = MCAST_ADDR6 ++ "%" ++ i.name ↔ i.name.length ≤ 6 := by
  have h8 : (MCAST_ADDR6 ++ "%" : String).data.length = 9 := by decide
  have hlen : (MCAST_ADDR6 ++ "%" ++ i.name).data.length = 9 + i.name.length := by
    rw [String.data_append, List.length_append, h8]
    rfl
  have hr : reconnect_mcast_addr i =
      String.mk ((MCAST_ADDR6 ++ "%" ++ i.name).data.take 15) := by
    simp only [reconnect_mcast_addr, hv6, if_true, hm, snprintf]
    rfl
  rw [hr]
  constructor
  · intro h
    have h2 : ((MCAST_ADDR6 ++ "%" ++ i.name).data.take 15).length =
        (MCAST_ADDR6 ++ "%" ++ i.name).data.length :=
      congrArg (fun s : String => s.data.length) h
    rw [List.length_take, hlen] at h2
    omega
  · intro h
    rw [List.take_of_length_le (by rw [hlen]; omega)]

/-- C9: for the IPv6 entry of the interface `eth0.100`, the address `reconnect_socket`
passes to `usock` is `ff02::fb%eth0.1`: the 16-byte buffer holds 15 characters,
and the last two characters of the interface name are dropped.  The port is
`5353`, and for an IPv4 entry the address is `224.0.0.251`. -/
theorem reconnect_socket_truncates_scope :
    reconnect_mcast_addr eth0_100_v6 = "ff02::fb%eth0.1" ∧
      reconnect_mcast_addr eth0_100_v6 ≠ "ff02::fb%eth0.100" ∧
      (reconnect_socket env_no_socket eth0_100_v6).2.head? =
        some (Effect.usock
          [UsockFlag.USOCK_UDP, UsockFlag.USOCK_SERVER, UsockFlag.USOCK_NONBLOCK,
           UsockFlag.USOCK_IPV6ONLY] "ff02::fb%eth0.1" "5353") ∧
      reconnect_mcast_addr eth0_v4 = "224.0.0.251" := by
  refine ⟨by decide, by decide, by decide, by decide⟩

end Mdnsd
